import Mathlib

/-!
Verification of the keploy-denoise-demo fixture servers.

The development shallowly embeds the two Go servers of the repository:
the noisy-field fixture server (`src/main.go`) and the e-commerce order
system server (the unnamed Go file). Randomness and wall-clock time are
modelled as explicit inputs: each `rand.Intn n` draw is an arbitrary
natural number reduced modulo `n`, each library-generated identifier
(UUID, ULID, KSUID, parsed timestamp) is an arbitrary input string
bundled in an `Env` record, and `time.Now()` values are explicit
parameters. Go `int64` values are modelled as integers with explicit
two's-complement wrapping where overflow matters. Go maps are modelled as
functions into `Option`; reading a struct out of a Go map copies it, so
the embedded GET handlers return the state unchanged, exactly as the
source does (no write-back occurs after the local mutation).
-/

/-! ## Digit rendering (models fmt's d and x verbs and strconv.FormatInt) -/

/-- Digit values in base `b2 + 2`, big-endian; fuel-based so that the
kernel can evaluate it. `natDigitsAux b2 fuel n` is the digit list of `n`
provided `n < fuel`. -/
def natDigitsAux (b2 : Nat) : Nat → Nat → List Nat
  | 0, _ => []
  | fuel + 1, n =>
    if n < b2 + 2 then [n]
    else natDigitsAux b2 fuel (n / (b2 + 2)) ++ [n % (b2 + 2)]

/-- Big-endian base-(b2+2) digit values of `n`. -/
def natDigits (b2 n : Nat) : List Nat := natDigitsAux b2 (n + 1) n

/-- The sixteen lowercase hexadecimal digit characters, as in the Go
constant "0123456789abcdef". -/
def hexAlphabet : List Char := "0123456789abcdef".toList

/-- The ten decimal digit characters. -/
def decAlphabet : List Char := "0123456789".toList

/-- Lowercase-hex rendering of a natural number (fmt's x verb, no padding). -/
def toHexList (n : Nat) : List Char :=
  (natDigits 14 n).map (fun d => hexAlphabet.getD d 'x')

/-- Decimal rendering of a natural number (fmt's d verb, no padding). -/
def toDecList (n : Nat) : List Char :=
  (natDigits 8 n).map (fun d => decAlphabet.getD d 'x')

/-- Left zero-padding to a minimum width, as fmt's 0-flagged verbs do:
the width is a minimum, longer renderings are kept whole. -/
def padZeroLeft (w : Nat) (l : List Char) : List Char :=
  List.replicate (w - l.length) '0' ++ l

/-- Rendering of `strconv.FormatInt i 10`. -/
def formatInt (i : Int) : String :=
  if i < 0 then String.mk ('-' :: toDecList i.natAbs) else String.mk (toDecList i.natAbs)

/-! ## Character-class predicates used to state shape properties -/

/-- A lowercase hexadecimal character, 0-9 or a-f. -/
def isLowerHexChar (c : Char) : Bool :=
  c.isDigit || ('a' ≤ c && c ≤ 'f')

/-- A character of the NanoID alphabet: A-Z, a-z, 0-9, underscore or dash. -/
def isNanoChar (c : Char) : Bool :=
  c.isAlphanum || c == '_' || c == '-'

/-! ## Value generators of the fixture server (src/main.go) -/

/-- The 64-character NanoID alphabet used by `generateNanoID` in
src/main.go. -/
def nanoAlphabet : List Char :=
  "ABCDEFGHIJKLMNOPQRSTUVWXYZabcdefghijklmnopqrstuvwxyz0123456789_-".toList

/-- Embeds `generateObjectID` from src/main.go.
`nowUnix` models `time.Now().Unix()` cast to `uint32`, `r1` and `r2`
model the two `rand.Intn 0xFFFF` draws and `counter` models
`rand.Uint32()`. The result is the 8-4-4-8 lowercase-hex rendering
produced by the format string "%08x%04x%04x%08x". -/
def generateObjectID (nowUnix r1 r2 counter : Nat) : String :=
  String.mk (padZeroLeft 8 (toHexList (nowUnix % 2 ^ 32)) ++
    padZeroLeft 4 (toHexList (r1 % 65535)) ++
    padZeroLeft 4 (toHexList (r2 % 65535)) ++
    padZeroLeft 8 (toHexList (counter % 2 ^ 32)))

/-- Embeds `generateNanoID` from src/main.go: 21 characters indexed into
the 64-character alphabet; `r i` models the i-th `rand.Intn 64` draw. -/
def generateNanoID (r : Nat → Nat) : String :=
  String.mk ((List.range 21).map (fun i => nanoAlphabet.getD (r i % 64) 'x'))

/-- Embeds `generateSHA256` from src/main.go: 64 characters indexed into
"0123456789abcdef"; `r i` models the i-th `rand.Intn 16` draw. -/
def generateSHA256 (r : Nat → Nat) : String :=
  String.mk ((List.range 64).map (fun i => hexAlphabet.getD (r i % 16) 'x'))

/-- The Twitter Snowflake epoch in Unix milliseconds, from
`generateSnowflakeID` in src/main.go. -/
def twitterEpoch : Nat := 1288834974657

/-- Interprets a 64-bit pattern as a Go `int64` (two's complement). -/
def i64ofBits (bits : Nat) : Int :=
  if bits < 2 ^ 63 then (bits : Int) else (bits : Int) - 2 ^ 64

/-- Embeds `generateSnowflakeID` from src/main.go for wall-clock times
at or after the epoch: the millisecond offset is shifted left 22 bits
(wrapping at 64 bits, as Go's int64 shift does), then OR-ed with the
datacenter bits (a `rand.Intn 32` draw shifted left 17), the worker bits
(a `rand.Intn 32` draw shifted left 12) and the sequence
(a `rand.Int63n 4096` draw). -/
def generateSnowflakeID (nowMs seqD wD dcD : Nat) : Int :=
  let timestamp := ((nowMs - twitterEpoch) * 2 ^ 22) % 2 ^ 64
  let sequence := seqD % 4096
  let workerId := (wD % 32) * 2 ^ 12
  let datacenterId := (dcD % 32) * 2 ^ 17
  i64ofBits (((timestamp ||| datacenterId) ||| workerId) ||| sequence)

/-- The decimal string returned by `generateSnowflakeID`
(`strconv.FormatInt snowflake 10`). -/
def generateSnowflakeIDString (nowMs seqD wD dcD : Nat) : String :=
  formatInt (generateSnowflakeID nowMs seqD wD dcD)

/-- The 65-character alphabet of `generateAPIKey` in src/main.go. -/
def apiKeyAlphabet : List Char :=
  "ABCDEFGHIJKLMNOPQRSTUVWXYZabcdefghijklmnopqrstuvwxyz0123456789+/=".toList

/-- Embeds `generateAPIKey` from src/main.go: 40 characters indexed into
the 65-character alphabet; `r i` models the i-th `rand.Intn 65` draw. -/
def generateAPIKey (r : Nat → Nat) : String :=
  String.mk ((List.range 40).map (fun i => apiKeyAlphabet.getD (r i % 65) 'x'))

/-- Embeds `generateSessionToken` from src/main.go: 32 characters indexed
into "0123456789abcdef"; `r i` models the i-th `rand.Intn 16` draw. -/
def generateSessionToken (r : Nat → Nat) : String :=
  String.mk ((List.range 32).map (fun i => hexAlphabet.getD (r i % 16) 'x'))

/-! ## Fixture-server routes (src/main.go)

Each handler of the fixture server reads only the clock and the process
random source; `FEnv` bundles one request's worth of those draws as
streams, indexed in the order the handler consumes them. Response
headers that carry only generated values (Date, X-Request-Time,
X-Request-ID, X-Trace-ID, X-Auth-Token, X-Correlation-ID) are noisy by
construction and are kept as stream draws; the two static header values
of the fixture server (Content-Language on /mixed, X-Static-Header on
/headers-only) are embedded explicitly. -/

/-- One fixture-server request's draws: `times i` is the rendering of
the i-th `time.Now()` call, `uuids`, `ksuids` and `ulids` the i-th
library identifier, `rands` the stream feeding the custom generators,
`nowUnix` and `nowMs` the clock values read by generateObjectID and
generateSnowflakeID, and `unixNano` the `UnixNano()` value. -/
structure FEnv where
  times : Nat → String
  uuids : Nat → String
  ksuids : Nat → String
  ulids : Nat → String
  rands : Nat → Nat
  nowUnix : Nat
  nowMs : Nat
  unixNano : Int

/-- Body of /timestamps (struct TimestampResponse in src/main.go). -/
structure TimestampResponse where
  rfc3339 : String
  rfc1123 : String
  unix_date : String
  iso8601 : String
  custom_date : String
  unix_nano : Int
  static_name : String

/-- Body of /uuids (struct UUIDResponse). -/
structure UUIDResponse where
  id : String
  session_id : String
  request_id : String
  static_field : String

/-- Body of /random-ids (struct RandomIDResponse). -/
structure RandomIDResponse where
  ksuid : String
  ulid : String
  object_id : String
  snowflake_id : String
  nano_id : String
  static_val : String

/-- Body of /prefixed-ids (struct PrefixedIDResponse). -/
structure PrefixedIDResponse where
  encryption_key : String
  token_id : String
  user_id : String
  regular_text : String

/-- Body of /hashes (struct HashResponse). -/
structure HashResponse where
  sha256_hash : String
  api_key : String
  session_token : String
  regular_string : String

/-- The data object of /nested. -/
structure NestedData where
  created_at : String
  updated_at : String
  id : String
  title : String

/-- The meta object of /nested. -/
structure NestedMeta where
  request_id : String
  trace_id : String
  service_name : String

/-- Body of /nested (struct NestedResponse). -/
structure NestedResponse where
  data : NestedData
  meta : NestedMeta

/-- Body of /arrays (struct ArrayResponse). -/
structure ArrayResponse where
  ids : List String
  timestamps : List String
  names : List String

/-- Body of /mixed (struct MixedResponse). -/
structure MixedResponse where
  id : String
  name : String
  email : String
  age : Nat
  created_at : String
  balance : Rat
  request_id : String
  phone_number : String
  ip_address : String

/-- Body of /edge-cases (struct EdgeCaseResponse); every field is a
fixed literal, the partial-UUID one included. -/
structure EdgeCaseResponse where
  empty_string : String
  short_string : String
  long_normal_string : String
  partial_uuid : String
  almost_timestamp : String
  number_string : String
  url_string : String
  email_string : String

/-- Body of /all-noisy, flattening the Go map literal: the nested object
becomes the three nested_ fields. -/
structure AllNoisyResponse where
  uuid : String
  ksuid : String
  ulid : String
  object_id : String
  snowflake : String
  nano_id : String
  timestamp : String
  sha256 : String
  api_key : String
  prefixed_id : String
  nested_created_at : String
  nested_id : String
  nested_static : String
  id_array : List String
  static_field : String

/-- Embeds the /timestamps handler; draws 0 and 1 of `times` go to the
Date and X-Request-Time headers, the body consumes draws 2 to 6. -/
def timestampsHandler (e : FEnv) : TimestampResponse :=
  { rfc3339 := e.times 2
    rfc1123 := e.times 3
    unix_date := e.times 4
    iso8601 := e.times 5
    custom_date := e.times 6
    unix_nano := e.unixNano
    static_name := "This is a static value" }

/-- Embeds the /uuids handler; draw 0 goes to the X-Request-ID header. -/
def uuidsHandler (e : FEnv) : UUIDResponse :=
  { id := e.uuids 1
    session_id := e.uuids 2
    request_id := e.uuids 3
    static_field := "static-value-not-uuid" }

/-- Embeds the /random-ids handler; ksuid draw 0 goes to the X-Trace-ID
header, the custom generators consume disjoint slices of `rands`. -/
def randomIdsHandler (e : FEnv) : RandomIDResponse :=
  { ksuid := e.ksuids 1
    ulid := e.ulids 0
    object_id := generateObjectID e.nowUnix (e.rands 0) (e.rands 1) (e.rands 2)
    snowflake_id := generateSnowflakeIDString e.nowMs (e.rands 3) (e.rands 4) (e.rands 5)
    nano_id := generateNanoID (fun i => e.rands (6 + i))
    static_val := "normal-static-value" }

/-- Embeds the /prefixed-ids handler: three generateSessionToken calls
with the documented string markers. -/
def prefixedIdsHandler (e : FEnv) : PrefixedIDResponse :=
  { encryption_key := "enc_" ++ generateSessionToken (fun i => e.rands i)
    token_id := "token_" ++ generateSessionToken (fun i => e.rands (32 + i))
    user_id := "id_" ++ generateSessionToken (fun i => e.rands (64 + i))
    regular_text := "This is regular text content" }

/-- Embeds the /hashes handler; the X-Auth-Token header consumes the
first 40 draws of `rands` through generateAPIKey. -/
def hashesHandler (e : FEnv) : HashResponse :=
  { sha256_hash := generateSHA256 (fun i => e.rands (40 + i))
    api_key := generateAPIKey (fun i => e.rands (104 + i))
    session_token := generateSessionToken (fun i => e.rands (144 + i))
    regular_string := "This is a regular string value" }

/-- Embeds the /nested handler. -/
def nestedHandler (e : FEnv) : NestedResponse :=
  { data :=
      { created_at := e.times 0
        updated_at := e.times 1
        id := e.uuids 0
        title := "Sample Title" }
    meta :=
      { request_id := e.ksuids 0
        trace_id := e.ulids 0
        service_name := "noisy-field-detector" } }

/-- Embeds the /arrays handler. -/
def arraysHandler (e : FEnv) : ArrayResponse :=
  { ids := [e.uuids 0, e.uuids 1, e.uuids 2]
    timestamps := [e.times 0, e.times 1]
    names := ["John", "Jane", "Bob"] }

/-- Embeds the /mixed handler body; uuid draw 0 goes to the
X-Correlation-ID header. -/
def mixedHandler (e : FEnv) : MixedResponse :=
  { id := e.uuids 1
    name := "John Doe"
    email := "john.doe@example.com"
    age := 30
    created_at := e.times 0
    balance := 1234.56
    request_id := e.ksuids 0
    phone_number := "+1-555-123-4567"
    ip_address := "192.168.1.100" }

/-- The X-Correlation-ID header of /mixed (generated, noisy). -/
def mixedCorrelationHeader (e : FEnv) : String := e.uuids 0

/-- The Content-Language header of /mixed (static). -/
def mixedContentLanguageHeader (_ : FEnv) : String := "en-US"

/-- Embeds the /edge-cases handler: a fully static body. -/
def edgeCasesHandler (_ : FEnv) : EdgeCaseResponse :=
  { empty_string := ""
    short_string := "abc"
    long_normal_string := "The quick brown fox jumps over the lazy dog"
    partial_uuid := "550e8400-e29b-41d4-a716"
    almost_timestamp := "not-a-date-2023"
    number_string := "12345"
    url_string := "https://example.com/path"
    email_string := "test@example.com" }

/-- Embeds the /plain-uuid handler: the whole text body is one UUID. -/
def plainUuidHandler (e : FEnv) : String := e.uuids 0

/-- Embeds the /plain-timestamp handler. -/
def plainTimestampHandler (e : FEnv) : String := e.times 0

/-- Embeds the /plain-text handler: a fixed static sentence. -/
def plainTextHandler (_ : FEnv) : String :=
  "This is a regular plain text response"

/-- Embeds the /empty handler: 204, no body. -/
def emptyHandler (_ : FEnv) : Nat × Option String := (204, none)

/-- The three headers of /headers-only with the response status. -/
structure HeadersOnlyResult where
  xRequestId : String
  xTimestamp : String
  xStaticHeader : String
  status : Nat

/-- Embeds the /headers-only handler. -/
def headersOnlyHandler (e : FEnv) : HeadersOnlyResult :=
  { xRequestId := e.uuids 0
    xTimestamp := e.times 0
    xStaticHeader := "static-value"
    status := 200 }

/-- Embeds the /all-noisy handler; header draws: Date takes times 0,
X-Request-ID takes uuids 0, X-Trace-ID takes ksuids 0. -/
def allNoisyHandler (e : FEnv) : AllNoisyResponse :=
  { uuid := e.uuids 1
    ksuid := e.ksuids 1
    ulid := e.ulids 0
    object_id := generateObjectID e.nowUnix (e.rands 0) (e.rands 1) (e.rands 2)
    snowflake := generateSnowflakeIDString e.nowMs (e.rands 3) (e.rands 4) (e.rands 5)
    nano_id := generateNanoID (fun i => e.rands (6 + i))
    timestamp := e.times 1
    sha256 := generateSHA256 (fun i => e.rands (27 + i))
    api_key := generateAPIKey (fun i => e.rands (91 + i))
    prefixed_id := "enc_" ++ generateSessionToken (fun i => e.rands (131 + i))
    nested_created_at := e.times 2
    nested_id := e.uuids 2
    nested_static := "not-noisy-value"
    id_array := [e.uuids 3, e.uuids 4]
    static_field := "This is a static non-noisy field" }

/-! ## Order-system server: data model (unnamed Go file) -/

/-- The User record of the order system; `createdAt` renders the
`time.Time` value drawn at creation, `processingTimeMs` is the Go
`int64` field. -/
structure User where
  accountNumber : String
  userId : String
  name : String
  email : String
  sessionId : String
  uuidV4 : String
  ulidId : String
  ksuidId : String
  createdAt : String
  parsedTimestamp : String
  requestId : String
  processingTimeMs : Int
  serverTimestamp : String
deriving DecidableEq

/-- The Order record of the order system; `amount` models the Go
`float64` field as a rational (JSON numerals are finite decimals). -/
structure Order where
  orderId : String
  accountNumber : String
  amount : Rat
  status : String
  items : List String
  sessionId : String
  uuidV4 : String
  ulidId : String
  ksuidId : String
  createdAt : String
  parsedTimestamp : String
  requestId : String
  processingTimeMs : Int
  transactionHash : String
  serverTimestamp : String
deriving DecidableEq

/-- Decoded body of POST /users. -/
structure CreateUserRequest where
  name : String
  email : String
deriving DecidableEq

/-- Decoded body of POST /orders. -/
structure CreateOrderRequest where
  accountNumber : String
  amount : Rat
  items : List String
deriving DecidableEq

/-- One request's worth of nondeterministic draws: the UUID/ULID/KSUID
strings produced by the libraries, the timestamps read from the clock and
the measured processing time. Each handler invocation consumes one `Env`. -/
structure Env where
  userIdDraw : String
  sessionDraw : String
  uuidV4Draw : String
  ulidDraw : String
  ksuidDraw : String
  createdAtDraw : String
  parsedTsDraw : String
  requestUuidDraw : String
  processingMsDraw : Int
  serverTsDraw : String
  txnUuidDraw : String
deriving DecidableEq

/-- The shared mutable state of the order system: the two stores and the
two counters (the Go package-level variables). -/
structure ServerState where
  userStore : String → Option User
  orderStore : String → Option Order
  accountCounter : Nat
  orderCounter : Nat

/-- Response body shapes the order system can produce. `errorBody msg`
is the JSON error envelope written through `writeJSON` with an
`ErrorResponse`, `healthBody s` is the one-field JSON health object, and
`textBody` is the plain-text body written by `http.Error`. -/
inductive Body where
  | userBody : User → Body
  | orderBody : Order → Body
  | errorBody : String → Body
  | healthBody : String → Body
  | textBody : String → Body
deriving DecidableEq

/-- An HTTP response: status code and body. -/
structure HttpResponse where
  statusCode : Nat
  body : Body
deriving DecidableEq

/-- The process-start state: empty stores, both counters zero. -/
def initialState : ServerState :=
  { userStore := fun _ => none
    orderStore := fun _ => none
    accountCounter := 0
    orderCounter := 0 }

/-- Zero-padded rendering used by "%08d" (minimum width eight). -/
def zeroPad8 (n : Nat) : String := String.mk (padZeroLeft 8 (toDecList n))

/-- Rendering of account numbers, `fmt.Sprintf "ACC-%08d" counter`. -/
def formatAccountNumber (n : Nat) : String := "ACC-" ++ zeroPad8 n

/-- Rendering of order ids, `fmt.Sprintf "ORD-%08d" counter`. -/
def formatOrderID (n : Nat) : String := "ORD-" ++ zeroPad8 n

/-- Embeds `generateAccountNumber`: increments the account counter under
the lock and renders it. -/
def generateAccountNumber (s : ServerState) : ServerState × String :=
  ({ s with accountCounter := s.accountCounter + 1 },
   formatAccountNumber (s.accountCounter + 1))

/-- Embeds `generateOrderID`: increments the order counter under the
lock and renders it. -/
def generateOrderID (s : ServerState) : ServerState × String :=
  ({ s with orderCounter := s.orderCounter + 1 },
   formatOrderID (s.orderCounter + 1))

/-- Embeds `generateRequestID`: "REQ-" followed by a fresh UUID. -/
def generateRequestID (env : Env) : String := "REQ-" ++ env.requestUuidDraw

/-- Embeds `generateTransactionHash`: "TXN-" followed by the first 16
characters of a fresh UUID. -/
def generateTransactionHash (env : Env) : String :=
  "TXN-" ++ (env.txnUuidDraw.take 16)

/-- The user record built by the POST /users handler: stable fields from
the request, all noisy fields freshly drawn. -/
def mkUser (acc : String) (req : CreateUserRequest) (env : Env) : User :=
  { accountNumber := acc
    userId := env.userIdDraw
    name := req.name
    email := req.email
    sessionId := env.sessionDraw
    uuidV4 := env.uuidV4Draw
    ulidId := env.ulidDraw
    ksuidId := env.ksuidDraw
    createdAt := env.createdAtDraw
    parsedTimestamp := env.parsedTsDraw
    requestId := generateRequestID env
    processingTimeMs := env.processingMsDraw
    serverTimestamp := env.serverTsDraw }

/-- The order record built by the POST /orders handler. -/
def mkOrder (oid : String) (req : CreateOrderRequest) (env : Env) : Order :=
  { orderId := oid
    accountNumber := req.accountNumber
    amount := req.amount
    status := "PENDING"
    items := req.items
    sessionId := env.sessionDraw
    uuidV4 := env.uuidV4Draw
    ulidId := env.ulidDraw
    ksuidId := env.ksuidDraw
    createdAt := env.createdAtDraw
    parsedTimestamp := env.parsedTsDraw
    requestId := generateRequestID env
    processingTimeMs := env.processingMsDraw
    transactionHash := generateTransactionHash env
    serverTimestamp := env.serverTsDraw }

/-- The field overwrites the GET /users/ handler performs on its local
copy of the stored record: sessionId, uuidV4, ulidId, ksuidId,
parsedTimestamp, requestId, processingTimeMs and serverTimestamp are
freshly drawn; userId and createdAt are left as stored. -/
def refreshUser (user : User) (env : Env) : User :=
  { user with
    sessionId := env.sessionDraw
    uuidV4 := env.uuidV4Draw
    ulidId := env.ulidDraw
    ksuidId := env.ksuidDraw
    parsedTimestamp := env.parsedTsDraw
    requestId := generateRequestID env
    processingTimeMs := env.processingMsDraw
    serverTimestamp := env.serverTsDraw }

/-- The field overwrites the GET /orders/ handler performs on its local
copy; createdAt and transactionHash are left as stored. -/
def refreshOrder (order : Order) (env : Env) : Order :=
  { order with
    sessionId := env.sessionDraw
    uuidV4 := env.uuidV4Draw
    ulidId := env.ulidDraw
    ksuidId := env.ksuidDraw
    parsedTimestamp := env.parsedTsDraw
    requestId := generateRequestID env
    processingTimeMs := env.processingMsDraw
    serverTimestamp := env.serverTsDraw }

/-- Embeds the POST /users handler. `reqBody = none` models a body that
failed JSON decoding. Mirrors the source order: method check, decode,
required-field validation, record construction, store insert. -/
def createUserHandler (method : String) (reqBody : Option CreateUserRequest)
    (env : Env) (s : ServerState) : ServerState × HttpResponse :=
  if method ≠ "POST" then
    (s, ⟨405, Body.textBody "method not allowed\n"⟩)
  else
    match reqBody with
    | none => (s, ⟨400, Body.errorBody "invalid request body"⟩)
    | some req =>
      if req.name = "" ∨ req.email = "" then
        (s, ⟨400, Body.errorBody "name and email are required"⟩)
      else
        let p := generateAccountNumber s
        let user := mkUser p.2 req env
        (⟨Function.update p.1.userStore p.2 (some user), p.1.orderStore,
            p.1.accountCounter, p.1.orderCounter⟩,
         ⟨201, Body.userBody user⟩)

/-- Embeds the POST /orders handler. Mirrors the source order: method
check, decode, required-field validation, parent-existence check under
the read lock, record construction, store insert. -/
def createOrderHandler (method : String) (reqBody : Option CreateOrderRequest)
    (env : Env) (s : ServerState) : ServerState × HttpResponse :=
  if method ≠ "POST" then
    (s, ⟨405, Body.textBody "method not allowed\n"⟩)
  else
    match reqBody with
    | none => (s, ⟨400, Body.errorBody "invalid request body"⟩)
    | some req =>
      if req.accountNumber = "" ∨ req.amount ≤ 0 ∨ req.items = [] then
        (s, ⟨400, Body.errorBody "accountNumber, amount, and items are required"⟩)
      else
        match s.userStore req.accountNumber with
        | none => (s, ⟨404, Body.errorBody "account not found"⟩)
        | some _ =>
          let p := generateOrderID s
          let order := mkOrder p.2 req env
          (⟨p.1.userStore, Function.update p.1.orderStore p.2 (some order),
              p.1.accountCounter, p.1.orderCounter⟩,
           ⟨201, Body.orderBody order⟩)

/-- Embeds the GET /users/ handler. The Go code reads the record out of
the map (a struct copy), overwrites the regenerated noisy fields on the
local copy and returns it; `userId` and `createdAt` are not regenerated
and nothing is written back to the store, so the state is unchanged. -/
def getUserHandler (method : String) (accountNumber : String)
    (env : Env) (s : ServerState) : ServerState × HttpResponse :=
  if method ≠ "GET" then
    (s, ⟨405, Body.textBody "method not allowed\n"⟩)
  else if accountNumber = "" then
    (s, ⟨400, Body.errorBody "account number required"⟩)
  else
    match s.userStore accountNumber with
    | none => (s, ⟨404, Body.errorBody "user not found"⟩)
    | some user => (s, ⟨200, Body.userBody (refreshUser user env)⟩)

/-- Embeds the GET /orders/ handler; as for users, `createdAt` and
`transactionHash` are not regenerated and the store is not written. -/
def getOrderHandler (method : String) (orderId : String)
    (env : Env) (s : ServerState) : ServerState × HttpResponse :=
  if method ≠ "GET" then
    (s, ⟨405, Body.textBody "method not allowed\n"⟩)
  else if orderId = "" then
    (s, ⟨400, Body.errorBody "order id required"⟩)
  else
    match s.orderStore orderId with
    | none => (s, ⟨404, Body.errorBody "order not found"⟩)
    | some order => (s, ⟨200, Body.orderBody (refreshOrder order env)⟩)

/-- Embeds the GET /health handler of the order system: reads no state,
draws no randomness, always the one-field body with status "ok". -/
def healthHandler (method : String) : HttpResponse :=
  if method ≠ "GET" then ⟨405, Body.textBody "method not allowed\n"⟩
  else ⟨200, Body.healthBody "ok"⟩

/-- Embeds the /health handler of the fixture server (src/main.go): no
method check, constant one-field body with status "healthy". -/
def fixtureHealthResponse : HttpResponse := ⟨200, Body.healthBody "healthy"⟩

/-! ## The order system as a state machine -/

/-- One inbound request of the order system. -/
inductive Op where
  | createUser (method : String) (reqBody : Option CreateUserRequest) (env : Env)
  | createOrder (method : String) (reqBody : Option CreateOrderRequest) (env : Env)
  | getUser (method : String) (accountNumber : String) (env : Env)
  | getOrder (method : String) (orderId : String) (env : Env)
  | health (method : String)

/-- State transition of one request. -/
def step (s : ServerState) (op : Op) : ServerState :=
  match op with
  | .createUser m b env => (createUserHandler m b env s).1
  | .createOrder m b env => (createOrderHandler m b env s).1
  | .getUser m k env => (getUserHandler m k env s).1
  | .getOrder m k env => (getOrderHandler m k env s).1
  | .health _ => s

/-- The state reached from process start by a sequence of requests. -/
def runOps (ops : List Op) : ServerState := ops.foldl step initialState

/-- Store-key invariant: every stored user sits under its own account
number and every stored order under its own order id. -/
def StoreKeyInv (s : ServerState) : Prop :=
  (∀ k u, s.userStore k = some u → u.accountNumber = k) ∧
  (∀ k o, s.orderStore k = some o → o.orderId = k)

/-! ## Projections and shape predicates used in claim statements -/

/-- Decides whether a string matches the regular expression
ACC- followed by exactly eight decimal digits, anchored on both sides. -/
def matchesAccountShape (str : String) : Bool :=
  match str.toList with
  | 'A' :: 'C' :: 'C' :: '-' :: rest => rest.length == 8 && rest.all Char.isDigit
  | _ => false

/-- Whether a body is the JSON error envelope (an object with the single
field named error). -/
def isErrorEnvelope (b : Body) : Bool :=
  match b with
  | Body.errorBody _ => true
  | _ => false

/-- The stable fields (name, email) of a user response, if any. -/
def stableUserFields (r : HttpResponse) : Option (String × String) :=
  match r.body with
  | Body.userBody u => some (u.name, u.email)
  | _ => none

/-- The stable fields (amount, status, items) of an order response. -/
def stableOrderFields (r : HttpResponse) : Option (Rat × String × List String) :=
  match r.body with
  | Body.orderBody o => some (o.amount, o.status, o.items)
  | _ => none

/-- The userId field of a user response, if any. -/
def responseUserId (r : HttpResponse) : Option String :=
  match r.body with
  | Body.userBody u => some u.userId
  | _ => none

/-- The createdAt field of a user response, if any. -/
def responseCreatedAt (r : HttpResponse) : Option String :=
  match r.body with
  | Body.userBody u => some u.createdAt
  | _ => none

/-- The sessionId stored for a key in the user store, if any. -/
def storedUserSessionId (s : ServerState) (k : String) : Option String :=
  (s.userStore k).map User.sessionId

/-- Round-trip contract for POST /users followed by GET /users/key:
the create succeeds with a 201 user body, the get succeeds with a 200
user body against the same state, the stable fields equal the request,
the regenerated noisy fields of the get response are exactly the get
request's fresh draws (hence differ from the create response whenever
the draws differ), and userId and createdAt are returned unchanged. -/
def UserRoundTripSpec (req : CreateUserRequest) (ec eg : Env) (s : ServerState) : Prop :=
  ∃ s1 u1, createUserHandler "POST" (some req) ec s = (s1, ⟨201, Body.userBody u1⟩) ∧
    ∃ u2, getUserHandler "GET" u1.accountNumber eg s1 = (s1, ⟨200, Body.userBody u2⟩) ∧
      u1.name = req.name ∧ u1.email = req.email ∧
      u2.name = req.name ∧ u2.email = req.email ∧
      u1.sessionId = ec.sessionDraw ∧ u2.sessionId = eg.sessionDraw ∧
      u1.uuidV4 = ec.uuidV4Draw ∧ u2.uuidV4 = eg.uuidV4Draw ∧
      u1.ulidId = ec.ulidDraw ∧ u2.ulidId = eg.ulidDraw ∧
      u1.ksuidId = ec.ksuidDraw ∧ u2.ksuidId = eg.ksuidDraw ∧
      u1.parsedTimestamp = ec.parsedTsDraw ∧ u2.parsedTimestamp = eg.parsedTsDraw ∧
      u1.requestId = "REQ-" ++ ec.requestUuidDraw ∧
      u2.requestId = "REQ-" ++ eg.requestUuidDraw ∧
      u1.processingTimeMs = ec.processingMsDraw ∧
      u2.processingTimeMs = eg.processingMsDraw ∧
      u1.serverTimestamp = ec.serverTsDraw ∧ u2.serverTimestamp = eg.serverTsDraw ∧
      u2.userId = u1.userId ∧ u2.createdAt = u1.createdAt

/-- Round-trip contract for POST /users, POST /orders, GET /orders/key,
analogous to `UserRoundTripSpec`; additionally createdAt and
transactionHash are returned unchanged by the get. -/
def OrderRoundTripSpec (ureq : CreateUserRequest) (amt : Rat) (items : List String)
    (e0 ec eg : Env) (s : ServerState) : Prop :=
  ∃ s1 u1, createUserHandler "POST" (some ureq) e0 s = (s1, ⟨201, Body.userBody u1⟩) ∧
    ∃ s2 o1, createOrderHandler "POST" (some ⟨u1.accountNumber, amt, items⟩) ec s1 =
        (s2, ⟨201, Body.orderBody o1⟩) ∧
      ∃ o2, getOrderHandler "GET" o1.orderId eg s2 = (s2, ⟨200, Body.orderBody o2⟩) ∧
        o1.amount = amt ∧ o1.status = "PENDING" ∧ o1.items = items ∧
        o2.amount = amt ∧ o2.status = "PENDING" ∧ o2.items = items ∧
        o1.sessionId = ec.sessionDraw ∧ o2.sessionId = eg.sessionDraw ∧
        o1.uuidV4 = ec.uuidV4Draw ∧ o2.uuidV4 = eg.uuidV4Draw ∧
        o1.ulidId = ec.ulidDraw ∧ o2.ulidId = eg.ulidDraw ∧
        o1.ksuidId = ec.ksuidDraw ∧ o2.ksuidId = eg.ksuidDraw ∧
        o1.parsedTimestamp = ec.parsedTsDraw ∧ o2.parsedTimestamp = eg.parsedTsDraw ∧
        o1.requestId = "REQ-" ++ ec.requestUuidDraw ∧
        o2.requestId = "REQ-" ++ eg.requestUuidDraw ∧
        o1.processingTimeMs = ec.processingMsDraw ∧
        o2.processingTimeMs = eg.processingMsDraw ∧
        o1.serverTimestamp = ec.serverTsDraw ∧ o2.serverTimestamp = eg.serverTsDraw ∧
        o2.createdAt = o1.createdAt ∧ o2.transactionHash = o1.transactionHash

/-! ## Concrete sample inputs for witnesses and counterexamples -/

/-- A valid user-creation request. -/
def sampleUserReq : CreateUserRequest := ⟨"Alice", "a@x.com"⟩

/-- Draws of a creation request. -/
def envC : Env :=
  ⟨"uid-create", "sess-create", "uuid-create", "ulid-create", "ksuid-create",
   "created-at-create", "parsed-create", "requuid-create", 1, "servts-create",
   "txn-create"⟩

/-- Draws of a later read request, all distinct from those of `envC`. -/
def envG : Env :=
  ⟨"uid-get", "sess-get", "uuid-get", "ulid-get", "ksuid-get",
   "created-at-get", "parsed-get", "requuid-get", 2, "servts-get",
   "txn-get"⟩

/-- A state whose account counter has reached 99999999. -/
def stateAtCounterLimit : ServerState :=
  { initialState with accountCounter := 99999999 }

/-! ## Helper lemmas on digit rendering -/

theorem natDigitsAux_fuel_irrel (b2 : Nat) :
    ∀ f g n, n < f → n < g → natDigitsAux b2 f n = natDigitsAux b2 g n := by
  intro f
  induction f with
  | zero => intro g n h; omega
  | succ f ih =>
    intro g n hf hg
    cases g with
    | zero => omega
    | succ g =>
      simp only [natDigitsAux]
      by_cases h : n < b2 + 2
      · simp [h]
      · have hdiv : n / (b2 + 2) < n := Nat.div_lt_self (by omega) (by omega)
        simp only [h, if_false]
        rw [ih g (n / (b2 + 2)) (by omega) (by omega)]

theorem natDigits_succ (b2 n : Nat) (h : ¬ n < b2 + 2) :
    natDigits b2 n = natDigits b2 (n / (b2 + 2)) ++ [n % (b2 + 2)] := by
  have hdiv : n / (b2 + 2) < n := Nat.div_lt_self (by omega) (by omega)
  simp only [natDigits, natDigitsAux, h, if_false]
  exact congrArg (· ++ [n % (b2 + 2)])
    (natDigitsAux_fuel_irrel b2 n (n / (b2 + 2) + 1) (n / (b2 + 2)) (by omega) (by omega))

theorem natDigits_small (b2 n : Nat) (h : n < b2 + 2) : natDigits b2 n = [n] := by
  simp [natDigits, natDigitsAux, h]

theorem natDigits_ne_nil (b2 n : Nat) : natDigits b2 n ≠ [] := by
  by_cases h : n < b2 + 2
  · rw [natDigits_small b2 n h]; simp
  · rw [natDigits_succ b2 n h]; simp

theorem natDigits_lt (b2 : Nat) :
    ∀ n d, d ∈ natDigits b2 n → d < b2 + 2 := by
  intro n
  induction n using Nat.strong_induction_on with
  | _ n ih =>
    intro d hd
    by_cases h : n < b2 + 2
    · rw [natDigits_small b2 n h] at hd
      simp at hd; omega
    · rw [natDigits_succ b2 n h] at hd
      rcases List.mem_append.1 hd with h1 | h1
      · exact ih (n / (b2 + 2)) (Nat.div_lt_self (by omega) (by omega)) d h1
      · simp at h1
        subst h1
        exact Nat.mod_lt _ (by omega)

theorem natDigits_length_le (b2 : Nat) :
    ∀ n k, 1 ≤ k → n < (b2 + 2) ^ k → (natDigits b2 n).length ≤ k := by
  intro n
  induction n using Nat.strong_induction_on with
  | _ n ih =>
    intro k hk hn
    by_cases h : n < b2 + 2
    · rw [natDigits_small b2 n h]; simpa using hk
    · rw [natDigits_succ b2 n h]
      have hk2 : 2 ≤ k := by
        by_contra hcon
        have : k = 1 := by omega
        subst this
        simp at hn
        omega
      have hdivlt : n / (b2 + 2) < n := Nat.div_lt_self (by omega) (by omega)
      have hbound : n / (b2 + 2) < (b2 + 2) ^ (k - 1) := by
        rw [Nat.div_lt_iff_lt_mul (by omega : 0 < b2 + 2)]
        calc n < (b2 + 2) ^ k := hn
          _ = (b2 + 2) ^ (k - 1) * (b2 + 2) := by
              rw [← pow_succ]
              congr 1
              omega
      have := ih (n / (b2 + 2)) hdivlt (k - 1) (by omega) hbound
      simp only [List.length_append, List.length_cons, List.length_nil]
      omega

theorem natDigits_length_ge (b2 : Nat) :
    ∀ n k, (b2 + 2) ^ k ≤ n → k + 1 ≤ (natDigits b2 n).length := by
  intro n
  induction n using Nat.strong_induction_on with
  | _ n ih =>
    intro k hn
    by_cases h : n < b2 + 2
    · have hk : k = 0 := by
        by_contra hcon
        have : (b2 + 2) ^ 1 ≤ (b2 + 2) ^ k :=
          Nat.pow_le_pow_right (by omega) (by omega)
        simp at this
        omega
      subst hk
      rw [natDigits_small b2 n h]
      simp
    · rw [natDigits_succ b2 n h]
      cases k with
      | zero =>
        have h0 := natDigits_ne_nil b2 (n / (b2 + 2))
        simp only [List.length_append, List.length_cons, List.length_nil]
        have : 0 < (natDigits b2 (n / (b2 + 2))).length := List.length_pos.2 h0
        omega
      | succ k =>
        have hdivlt : n / (b2 + 2) < n := Nat.div_lt_self (by omega) (by omega)
        have hbound : (b2 + 2) ^ k ≤ n / (b2 + 2) := by
          rw [Nat.le_div_iff_mul_le (by omega : 0 < b2 + 2)]
          calc (b2 + 2) ^ k * (b2 + 2) = (b2 + 2) ^ (k + 1) := by rw [pow_succ]
            _ ≤ n := hn
        have := ih (n / (b2 + 2)) hdivlt k hbound
        simp only [List.length_append, List.length_cons, List.length_nil]
        omega

theorem padZeroLeft_length (w : Nat) (l : List Char) (h : l.length ≤ w) :
    (padZeroLeft w l).length = w := by
  simp [padZeroLeft]
  omega

theorem padZeroLeft_mem (w : Nat) (l : List Char) (c : Char)
    (hc : c ∈ padZeroLeft w l) : c = '0' ∨ c ∈ l := by
  rcases List.mem_append.1 hc with h | h
  · left; exact List.eq_of_mem_replicate h
  · right; exact h

theorem toHexList_mem_alphabet (n : Nat) (c : Char) (hc : c ∈ toHexList n) :
    c ∈ hexAlphabet := by
  simp only [toHexList, List.mem_map] at hc
  obtain ⟨d, hd, rfl⟩ := hc
  have : d < 16 := natDigits_lt 14 n d hd
  interval_cases d <;> decide

theorem toDecList_mem_alphabet (n : Nat) (c : Char) (hc : c ∈ toDecList n) :
    c ∈ decAlphabet := by
  simp only [toDecList, List.mem_map] at hc
  obtain ⟨d, hd, rfl⟩ := hc
  have : d < 10 := natDigits_lt 8 n d hd
  interval_cases d <;> decide

theorem toHexList_length_le (n k : Nat) (hk : 1 ≤ k) (hn : n < 16 ^ k) :
    (toHexList n).length ≤ k := by
  simpa [toHexList] using natDigits_length_le 14 n k hk hn

theorem toDecList_length_le (n k : Nat) (hk : 1 ≤ k) (hn : n < 10 ^ k) :
    (toDecList n).length ≤ k := by
  simpa [toDecList] using natDigits_length_le 8 n k hk hn

theorem toDecList_length_ge (n k : Nat) (hn : 10 ^ k ≤ n) :
    k + 1 ≤ (toDecList n).length := by
  simpa [toDecList] using natDigits_length_ge 8 n k hn

theorem left_le_or : ∀ a b : Nat, a ≤ a ||| b := by
  intro a
  induction a using Nat.binaryRec with
  | z => intro b; exact Nat.zero_le _
  | f ab na ih =>
    intro b
    induction b using Nat.binaryRec with
    | z => simp
    | f bb nb _ =>
      rw [Nat.lor_bit]
      have h := ih nb
      cases ab <;> cases bb <;> simp [Nat.bit] <;> omega

theorem hexAlphabet_lower_hex : ∀ c ∈ hexAlphabet, isLowerHexChar c = true := by
  decide

theorem decAlphabet_digits : ∀ c ∈ decAlphabet, Char.isDigit c = true := by
  decide

theorem nanoAlphabet_chars : ∀ c ∈ nanoAlphabet, isNanoChar c = true := by
  decide

theorem getD_mem_of_lt (l : List Char) (n : Nat) (h : n < l.length) (d : Char) :
    l.getD n d ∈ l := by
  rw [List.getD_eq_getElem l d h]
  exact l.getElem_mem h

theorem padHex_all_lower_hex (w n : Nat) :
    ∀ c ∈ padZeroLeft w (toHexList n), isLowerHexChar c = true := by
  intro c hc
  rcases padZeroLeft_mem w _ c hc with h | h
  · subst h; decide
  · exact hexAlphabet_lower_hex c (toHexList_mem_alphabet n c h)

theorem mod_lt_sixteen_pow_eight (t : Nat) : t % 2 ^ 32 < 16 ^ 8 := by
  have e1 : (16 : Nat) ^ 8 = 2 ^ 32 := by norm_num
  rw [e1]
  exact Nat.mod_lt t (by norm_num)

theorem mod_lt_sixteen_pow_four (t : Nat) : t % 65535 < 16 ^ 4 := by
  have := Nat.mod_lt t (show 0 < 65535 by norm_num)
  omega

/-- C7: for every state of the random source, generateObjectID returns
exactly 24 lowercase hexadecimal characters, generateNanoID returns 21
characters (hence within the documented 21 to 22) drawn from the
alphabet A-Z a-z 0-9 underscore dash, and generateSHA256 returns exactly
64 lowercase hexadecimal characters. -/
theorem c7_generator_shapes :
    (∀ t a b c, (generateObjectID t a b c).length = 24 ∧
      (generateObjectID t a b c).toList.all isLowerHexChar = true) ∧
    (∀ r, (generateNanoID r).length = 21 ∧ 21 ≤ (generateNanoID r).length ∧
      (generateNanoID r).length ≤ 22 ∧
      (generateNanoID r).toList.all isNanoChar = true) ∧
    (∀ r, (generateSHA256 r).length = 64 ∧
      (generateSHA256 r).toList.all isLowerHexChar = true) := by
  refine ⟨?_, ?_, ?_⟩
  · intro t a b c
    have h1 : (toHexList (t % 2 ^ 32)).length ≤ 8 :=
      toHexList_length_le _ 8 (by norm_num) (mod_lt_sixteen_pow_eight t)
    have h2 : (toHexList (a % 65535)).length ≤ 4 :=
      toHexList_length_le _ 4 (by norm_num) (mod_lt_sixteen_pow_four a)
    have h3 : (toHexList (b % 65535)).length ≤ 4 :=
      toHexList_length_le _ 4 (by norm_num) (mod_lt_sixteen_pow_four b)
    have h4 : (toHexList (c % 2 ^ 32)).length ≤ 8 :=
      toHexList_length_le _ 8 (by norm_num) (mod_lt_sixteen_pow_eight c)
    constructor
    · show (padZeroLeft 8 (toHexList (t % 2 ^ 32)) ++
        padZeroLeft 4 (toHexList (a % 65535)) ++
        padZeroLeft 4 (toHexList (b % 65535)) ++
        padZeroLeft 8 (toHexList (c % 2 ^ 32))).length = 24
      rw [List.length_append, List.length_append, List.length_append,
        padZeroLeft_length 8 _ h1, padZeroLeft_length 4 _ h2,
        padZeroLeft_length 4 _ h3, padZeroLeft_length 8 _ h4]
    · refine List.all_eq_true.2 ?_
      intro ch hch
      have hch2 : ch ∈ padZeroLeft 8 (toHexList (t % 2 ^ 32)) ++
          padZeroLeft 4 (toHexList (a % 65535)) ++
          padZeroLeft 4 (toHexList (b % 65535)) ++
          padZeroLeft 8 (toHexList (c % 2 ^ 32)) := hch
      rcases List.mem_append.1 hch2 with h | h
      · rcases List.mem_append.1 h with h | h
        · rcases List.mem_append.1 h with h | h
          · exact padHex_all_lower_hex _ _ ch h
          · exact padHex_all_lower_hex _ _ ch h
        · exact padHex_all_lower_hex _ _ ch h
      · exact padHex_all_lower_hex _ _ ch h
  · intro r
    refine ⟨rfl, by simp [generateNanoID], by simp [generateNanoID], ?_⟩
    refine List.all_eq_true.2 ?_
    intro ch hch
    have hch2 : ch ∈ (List.range 21).map (fun i => nanoAlphabet.getD (r i % 64) 'x') := hch
    rcases List.mem_map.1 hch2 with ⟨i, _, rfl⟩
    refine nanoAlphabet_chars _ (getD_mem_of_lt nanoAlphabet (r i % 64) ?_ 'x')
    have h64 : r i % 64 < 64 := Nat.mod_lt _ (by norm_num)
    have hlen : nanoAlphabet.length = 64 := rfl
    omega
  · intro r
    refine ⟨rfl, ?_⟩
    refine List.all_eq_true.2 ?_
    intro ch hch
    have hch2 : ch ∈ (List.range 64).map (fun i => hexAlphabet.getD (r i % 16) 'x') := hch
    rcases List.mem_map.1 hch2 with ⟨i, _, rfl⟩
    refine hexAlphabet_lower_hex _ (getD_mem_of_lt hexAlphabet (r i % 16) ?_ 'x')
    have h16 : r i % 16 < 16 := Nat.mod_lt _ (by norm_num)
    have hlen : hexAlphabet.length = 16 := rfl
    omega

/-- C8 (amended): the claim's digit bound does not hold immediately
after the epoch; it holds once the millisecond offset from the Twitter
epoch reaches 23841857911 (August 2011) and for as long as the shift
does not overflow the int64 (offset below 2 ^ 41, until about 2080):
in that window the packed value is a positive int64 whose decimal
rendering has 18 to 19 digits, for every state of the random source. -/
theorem c8_snowflake_digits (nowMs seqD wD dcD : Nat)
    (h1 : twitterEpoch + 23841857911 ≤ nowMs)
    (h2 : nowMs < twitterEpoch + 2 ^ 41) :
    0 < generateSnowflakeID nowMs seqD wD dcD ∧
    18 ≤ (generateSnowflakeIDString nowMs seqD wD dcD).length ∧
    (generateSnowflakeIDString nowMs seqD wD dcD).length ≤ 19 := by
  have hoff1 : 23841857911 ≤ nowMs - twitterEpoch := by
    simp only [twitterEpoch] at h1 ⊢
    omega
  have hoff2 : nowMs - twitterEpoch < 2 ^ 41 := by
    simp only [twitterEpoch] at h2 ⊢
    omega
  set offset := nowMs - twitterEpoch with hodef
  have hts_lt : offset * 2 ^ 22 < 2 ^ 63 := by
    have h3 : offset * 2 ^ 22 < 2 ^ 41 * 2 ^ 22 :=
      Nat.mul_lt_mul_of_lt_of_le hoff2 (le_refl _) (by norm_num)
    calc offset * 2 ^ 22 < 2 ^ 41 * 2 ^ 22 := h3
      _ ≤ 2 ^ 63 := by norm_num
  have hts_mod : offset * 2 ^ 22 % 2 ^ 64 = offset * 2 ^ 22 :=
    Nat.mod_eq_of_lt (lt_trans hts_lt (by norm_num))
  have hdc : (dcD % 32) * 2 ^ 17 < 2 ^ 63 := by
    have h3 : dcD % 32 < 32 := Nat.mod_lt _ (by norm_num)
    calc (dcD % 32) * 2 ^ 17 < 32 * 2 ^ 17 :=
        Nat.mul_lt_mul_of_lt_of_le h3 (le_refl _) (by norm_num)
      _ ≤ 2 ^ 63 := by norm_num
  have hw : (wD % 32) * 2 ^ 12 < 2 ^ 63 := by
    have h3 : wD % 32 < 32 := Nat.mod_lt _ (by norm_num)
    calc (wD % 32) * 2 ^ 12 < 32 * 2 ^ 12 :=
        Nat.mul_lt_mul_of_lt_of_le h3 (le_refl _) (by norm_num)
      _ ≤ 2 ^ 63 := by norm_num
  have hseq : seqD % 4096 < 2 ^ 63 := by
    have : seqD % 4096 < 4096 := Nat.mod_lt _ (by norm_num)
    omega
  set bits := ((offset * 2 ^ 22 % 2 ^ 64 ||| (dcD % 32) * 2 ^ 17) |||
      (wD % 32) * 2 ^ 12) ||| seqD % 4096 with hbdef
  have hbits_lt : bits < 2 ^ 63 := by
    rw [hbdef, hts_mod]
    exact Nat.or_lt_two_pow
      (Nat.or_lt_two_pow (Nat.or_lt_two_pow hts_lt hdc) hw) hseq
  have hbits_ge : offset * 2 ^ 22 ≤ bits := by
    rw [hbdef, hts_mod]
    calc offset * 2 ^ 22 ≤ offset * 2 ^ 22 ||| (dcD % 32) * 2 ^ 17 :=
        left_le_or _ _
      _ ≤ (offset * 2 ^ 22 ||| (dcD % 32) * 2 ^ 17) ||| (wD % 32) * 2 ^ 12 :=
        left_le_or _ _
      _ ≤ ((offset * 2 ^ 22 ||| (dcD % 32) * 2 ^ 17) ||| (wD % 32) * 2 ^ 12) |||
          seqD % 4096 := left_le_or _ _
  have hlow : 10 ^ 17 ≤ bits := by
    refine le_trans ?_ hbits_ge
    calc (10 : Nat) ^ 17 ≤ 23841857911 * 2 ^ 22 := by norm_num
      _ ≤ offset * 2 ^ 22 := Nat.mul_le_mul_right _ hoff1
  have hhigh : bits < 10 ^ 19 := lt_trans hbits_lt (by norm_num)
  have hid : generateSnowflakeID nowMs seqD wD dcD = (bits : Int) := by
    simp only [generateSnowflakeID, i64ofBits, hbdef]
    rw [if_pos]
    exact hbits_lt
  have hpos : 0 < generateSnowflakeID nowMs seqD wD dcD := by
    rw [hid]
    have : 0 < bits := lt_of_lt_of_le (by norm_num) hlow
    exact_mod_cast this
  refine ⟨hpos, ?_, ?_⟩
  · have hstr : generateSnowflakeIDString nowMs seqD wD dcD =
        String.mk (toDecList bits) := by
      simp only [generateSnowflakeIDString, formatInt, hid]
      rw [if_neg (not_lt.2 (Int.natCast_nonneg bits))]
      rw [Int.natAbs_ofNat]
    rw [hstr]
    show 18 ≤ (toDecList bits).length
    exact toDecList_length_ge bits 17 hlow
  · have hstr : generateSnowflakeIDString nowMs seqD wD dcD =
        String.mk (toDecList bits) := by
      simp only [generateSnowflakeIDString, formatInt, hid]
      rw [if_neg (not_lt.2 (Int.natCast_nonneg bits))]
      rw [Int.natAbs_ofNat]
    rw [hstr]
    show (toDecList bits).length ≤ 19
    exact toDecList_length_le bits 19 (by norm_num) hhigh

/-- Witness for C8 at the first millisecond of the valid window. -/
theorem c8_snowflake_digits_witness :
    0 < generateSnowflakeID (twitterEpoch + 23841857911) 0 0 0 ∧
    18 ≤ (generateSnowflakeIDString (twitterEpoch + 23841857911) 0 0 0).length ∧
    (generateSnowflakeIDString (twitterEpoch + 23841857911) 0 0 0).length ≤ 19 :=
  c8_snowflake_digits (twitterEpoch + 23841857911) 0 0 0
    (le_refl _) (by norm_num [twitterEpoch])

/-- Counterexample to C8 as stated: one millisecond after the Twitter
epoch the packed value is 2 ^ 22 and its decimal rendering has 7 digits,
not 18 to 19. -/
theorem c8_snowflake_digits_counterexample :
    generateSnowflakeID (twitterEpoch + 1) 0 0 0 = 4194304 ∧
    (generateSnowflakeIDString (twitterEpoch + 1) 0 0 0).length = 7 := by
  constructor
  · decide
  · decide

/-! ## Helper lemmas on the order-system handlers -/

theorem getUser_state_eq (m k : String) (env : Env) (s : ServerState) :
    (getUserHandler m k env s).1 = s := by
  unfold getUserHandler
  split
  · rfl
  · split
    · rfl
    · cases s.userStore k <;> rfl

theorem getOrder_state_eq (m k : String) (env : Env) (s : ServerState) :
    (getOrderHandler m k env s).1 = s := by
  unfold getOrderHandler
  split
  · rfl
  · split
    · rfl
    · cases s.orderStore k <;> rfl

theorem formatAccountNumber_ne_empty (n : Nat) : formatAccountNumber n ≠ "" := by
  intro h
  have h2 : (formatAccountNumber n).toList = ("" : String).toList :=
    congrArg String.toList h
  have h3 : (formatAccountNumber n).toList =
      'A' :: 'C' :: 'C' :: '-' :: (zeroPad8 n).toList := rfl
  rw [h3] at h2
  exact absurd h2 (by simp)

theorem formatOrderID_ne_empty (n : Nat) : formatOrderID n ≠ "" := by
  intro h
  have h2 : (formatOrderID n).toList = ("" : String).toList :=
    congrArg String.toList h
  have h3 : (formatOrderID n).toList =
      'O' :: 'R' :: 'D' :: '-' :: (zeroPad8 n).toList := rfl
  rw [h3] at h2
  exact absurd h2 (by simp)

theorem createUser_success (req : CreateUserRequest) (env : Env) (s : ServerState)
    (h1 : ¬ req.name = "") (h2 : ¬ req.email = "") :
    createUserHandler "POST" (some req) env s =
      (⟨Function.update s.userStore (formatAccountNumber (s.accountCounter + 1))
          (some (mkUser (formatAccountNumber (s.accountCounter + 1)) req env)),
        s.orderStore, s.accountCounter + 1, s.orderCounter⟩,
       ⟨201, Body.userBody (mkUser (formatAccountNumber (s.accountCounter + 1)) req env)⟩) := by
  simp [createUserHandler, h1, h2, generateAccountNumber]

theorem createOrder_success (req : CreateOrderRequest) (env : Env) (s : ServerState)
    (h1 : ¬ req.accountNumber = "") (h2 : ¬ req.amount ≤ 0) (h3 : ¬ req.items = [])
    (u : User) (h4 : s.userStore req.accountNumber = some u) :
    createOrderHandler "POST" (some req) env s =
      (⟨s.userStore, Function.update s.orderStore (formatOrderID (s.orderCounter + 1))
          (some (mkOrder (formatOrderID (s.orderCounter + 1)) req env)),
        s.accountCounter, s.orderCounter + 1⟩,
       ⟨201, Body.orderBody (mkOrder (formatOrderID (s.orderCounter + 1)) req env)⟩) := by
  simp [createOrderHandler, h1, h2, h3, h4, generateOrderID]

theorem getUser_hit (k : String) (env : Env) (s : ServerState) (u : User)
    (hk : ¬ k = "") (hu : s.userStore k = some u) :
    getUserHandler "GET" k env s = (s, ⟨200, Body.userBody (refreshUser u env)⟩) := by
  simp [getUserHandler, hk, hu]

theorem getOrder_hit (k : String) (env : Env) (s : ServerState) (o : Order)
    (hk : ¬ k = "") (ho : s.orderStore k = some o) :
    getOrderHandler "GET" k env s = (s, ⟨200, Body.orderBody (refreshOrder o env)⟩) := by
  simp [getOrderHandler, hk, ho]


theorem step_userStore_growth (s : ServerState) (op : Op) (k : String)
    (h : (s.userStore k).isSome = true) : ((step s op).userStore k).isSome = true := by
  cases op with
  | createUser m b env =>
    simp only [step]
    unfold createUserHandler
    split
    · exact h
    · split
      · exact h
      · split
        · exact h
        · simp only [generateAccountNumber]
          by_cases hk : k = formatAccountNumber (s.accountCounter + 1)
          · subst hk
            simp [Function.update]
          · simp [Function.update, hk]
            exact h
  | createOrder m b env =>
    simp only [step]
    unfold createOrderHandler
    split
    · exact h
    · split
      · exact h
      · split
        · exact h
        · split
          · exact h
          · exact h
  | getUser m k2 env => rw [step, getUser_state_eq]; exact h
  | getOrder m k2 env => rw [step, getOrder_state_eq]; exact h
  | health m => exact h

theorem step_orderStore_growth (s : ServerState) (op : Op) (k : String)
    (h : (s.orderStore k).isSome = true) : ((step s op).orderStore k).isSome = true := by
  cases op with
  | createUser m b env =>
    simp only [step]
    unfold createUserHandler
    split
    · exact h
    · split
      · exact h
      · split
        · exact h
        · exact h
  | createOrder m b env =>
    simp only [step]
    unfold createOrderHandler
    split
    · exact h
    · split
      · exact h
      · split
        · exact h
        · split
          · exact h
          · simp only [generateOrderID]
            by_cases hk : k = formatOrderID (s.orderCounter + 1)
            · subst hk
              simp [Function.update]
            · simp [Function.update, hk]
              exact h
  | getUser m k2 env => rw [step, getUser_state_eq]; exact h
  | getOrder m k2 env => rw [step, getOrder_state_eq]; exact h
  | health m => exact h

theorem step_preserves_inv (s : ServerState) (op : Op) (h : StoreKeyInv s) :
    StoreKeyInv (step s op) := by
  obtain ⟨hu, ho⟩ := h
  cases op with
  | createUser m b env =>
    simp only [step]
    unfold createUserHandler
    split
    · exact ⟨hu, ho⟩
    · split
      · exact ⟨hu, ho⟩
      · split
        · exact ⟨hu, ho⟩
        · simp only [generateAccountNumber]
          constructor
          · intro k u hk
            dsimp only at hk
            by_cases hkk : k = formatAccountNumber (s.accountCounter + 1)
            · subst hkk
              rw [Function.update_same] at hk
              cases hk
              rfl
            · rw [Function.update_noteq hkk] at hk
              exact hu k u hk
          · exact ho
  | createOrder m b env =>
    simp only [step]
    unfold createOrderHandler
    split
    · exact ⟨hu, ho⟩
    · split
      · exact ⟨hu, ho⟩
      · split
        · exact ⟨hu, ho⟩
        · split
          · exact ⟨hu, ho⟩
          · simp only [generateOrderID]
            constructor
            · exact hu
            · intro k o hk
              dsimp only at hk
              by_cases hkk : k = formatOrderID (s.orderCounter + 1)
              · subst hkk
                rw [Function.update_same] at hk
                cases hk
                rfl
              · rw [Function.update_noteq hkk] at hk
                exact ho k o hk
  | getUser m k2 env => rw [step, getUser_state_eq]; exact ⟨hu, ho⟩
  | getOrder m k2 env => rw [step, getOrder_state_eq]; exact ⟨hu, ho⟩
  | health m => exact ⟨hu, ho⟩

theorem initialState_inv : StoreKeyInv initialState := by
  constructor
  · intro k u hk
    exact absurd hk (by simp [initialState])
  · intro k o hk
    exact absurd hk (by simp [initialState])

theorem runOps_inv (ops : List Op) : StoreKeyInv (runOps ops) := by
  have hgen : ∀ (l : List Op) (s : ServerState), StoreKeyInv s → StoreKeyInv (l.foldl step s) := by
    intro l
    induction l with
    | nil => intro s hs; exact hs
    | cons a l ih => intro s hs; exact ih _ (step_preserves_inv s a hs)
  exact hgen ops initialState initialState_inv

/-- C2 (amended): a Get of an existing key leaves both store maps and
both counters completely unchanged — the handler mutates only its local
copy of the record, so the freshly generated noisy values appear only in
the response — and no operation ever removes a record from either map. -/
theorem c2_get_leaves_store_unchanged :
    (∀ m k env s, (getUserHandler m k env s).1 = s) ∧
    (∀ m k env s, (getOrderHandler m k env s).1 = s) ∧
    (∀ s op k, (s.userStore k).isSome = true → ((step s op).userStore k).isSome = true) ∧
    (∀ s op k, (s.orderStore k).isSome = true → ((step s op).orderStore k).isSome = true) :=
  ⟨getUser_state_eq, getOrder_state_eq, step_userStore_growth, step_orderStore_growth⟩

/-- Witness for C2: a concrete create-then-get run. -/
theorem c2_get_leaves_store_unchanged_witness :
    (getUserHandler "GET" "ACC-00000001" envG
        ((createUserHandler "POST" (some sampleUserReq) envC initialState).1)).1 =
      (createUserHandler "POST" (some sampleUserReq) envC initialState).1 ∧
    ((step ((createUserHandler "POST" (some sampleUserReq) envC initialState).1)
        (Op.getUser "GET" "ACC-00000001" envG)).userStore "ACC-00000001").isSome = true :=
  ⟨c2_get_leaves_store_unchanged.1 "GET" "ACC-00000001" envG _,
   c2_get_leaves_store_unchanged.2.2.1 _ (Op.getUser "GET" "ACC-00000001" envG)
     "ACC-00000001" (by decide)⟩

/-- Counterexample to C2 as stated: after a create with session draw
sess-create and a get with fresh session draw sess-get, the record in
the user store still carries the creation-time sessionId, so the stored
record's noisy fields were not overwritten in place. -/
theorem c2_get_leaves_store_unchanged_counterexample :
    storedUserSessionId ((getUserHandler "GET" "ACC-00000001" envG
        ((createUserHandler "POST" (some sampleUserReq) envC initialState).1)).1)
      "ACC-00000001" = some "sess-create" ∧
    envG.sessionDraw = "sess-get" ∧
    storedUserSessionId ((getUserHandler "GET" "ACC-00000001" envG
        ((createUserHandler "POST" (some sampleUserReq) envC initialState).1)).1)
      "ACC-00000001" ≠ some envG.sessionDraw := by
  refine ⟨by decide, by decide, by decide⟩

/-- C3: a POST /orders that passes input validation but names an
accountNumber absent from the user store fails with 404 and the JSON
referential error, and the whole server state — both stores and both
counters, in particular the order counter — is returned unchanged. -/
theorem c3_unknown_parent_no_mutation (req : CreateOrderRequest) (env : Env)
    (s : ServerState) (h1 : req.accountNumber ≠ "") (h2 : ¬ req.amount ≤ 0)
    (h3 : req.items ≠ []) (h4 : s.userStore req.accountNumber = none) :
    createOrderHandler "POST" (some req) env s =
      (s, ⟨404, Body.errorBody "account not found"⟩) := by
  simp [createOrderHandler, h1, h2, h3, h4]

/-- Witness for C3 on the empty store. -/
theorem c3_unknown_parent_no_mutation_witness :
    createOrderHandler "POST" (some ⟨"ACC-00000001", 5, ["Laptop"]⟩) envC initialState =
      (initialState, ⟨404, Body.errorBody "account not found"⟩) :=
  c3_unknown_parent_no_mutation ⟨"ACC-00000001", 5, ["Laptop"]⟩ envC initialState
    (by decide) (by decide) (by decide) rfl

/-- C5: a create call with missing or invalid required stable fields
fails with 400 and the JSON validation error, and the state — so in
particular both stores — is returned unchanged: POST /users rejects an
empty name or email, POST /orders rejects an empty accountNumber, a
non-positive amount or an empty item list. -/
theorem c5_invalid_input_rejected :
    (∀ req env s, (req.name = "" ∨ req.email = "") →
      createUserHandler "POST" (some req) env s =
        (s, ⟨400, Body.errorBody "name and email are required"⟩)) ∧
    (∀ req env s, (req.accountNumber = "" ∨ req.amount ≤ 0 ∨ req.items = []) →
      createOrderHandler "POST" (some req) env s =
        (s, ⟨400, Body.errorBody "accountNumber, amount, and items are required"⟩)) := by
  constructor
  · intro req env s h
    simp [createUserHandler, h]
  · intro req env s h
    simp [createOrderHandler, h]

/-- Witness for C5: an empty name and a zero amount are rejected. -/
theorem c5_invalid_input_rejected_witness :
    createUserHandler "POST" (some ⟨"", "a@x.com"⟩) envC initialState =
      (initialState, ⟨400, Body.errorBody "name and email are required"⟩) ∧
    createOrderHandler "POST" (some ⟨"ACC-00000001", 0, ["Laptop"]⟩) envC initialState =
      (initialState, ⟨400, Body.errorBody "accountNumber, amount, and items are required"⟩) :=
  ⟨c5_invalid_input_rejected.1 ⟨"", "a@x.com"⟩ envC initialState (Or.inl rfl),
   c5_invalid_input_rejected.2 ⟨"ACC-00000001", 0, ["Laptop"]⟩ envC initialState
     (Or.inr (Or.inl (le_refl 0)))⟩

/-- C10: every state reachable from process start keys each stored user
by its own accountNumber and each stored order by its own orderId, every
single request preserves that invariant, and both store maps only ever
grow. -/
theorem c10_store_key_invariant :
    (∀ ops, StoreKeyInv (runOps ops)) ∧
    (∀ s op, StoreKeyInv s → StoreKeyInv (step s op)) ∧
    (∀ s op k, (s.userStore k).isSome = true → ((step s op).userStore k).isSome = true) ∧
    (∀ s op k, (s.orderStore k).isSome = true → ((step s op).orderStore k).isSome = true) :=
  ⟨runOps_inv, step_preserves_inv, step_userStore_growth, step_orderStore_growth⟩

/-- Witness for C10: one concrete create step from the initial state. -/
theorem c10_store_key_invariant_witness :
    StoreKeyInv (step initialState (Op.createUser "POST" (some sampleUserReq) envC)) :=
  c10_store_key_invariant.2.1 initialState
    (Op.createUser "POST" (some sampleUserReq) envC) initialState_inv


theorem matchesAccountShape_of_le (n : Nat) (h : n ≤ 99999999) :
    matchesAccountShape (formatAccountNumber n) = true := by
  have hlen : (toDecList n).length ≤ 8 :=
    toDecList_length_le n 8 (by norm_num) (by omega)
  have hplen : (padZeroLeft 8 (toDecList n)).length = 8 := padZeroLeft_length _ _ hlen
  have htl : (formatAccountNumber n).toList =
      'A' :: 'C' :: 'C' :: '-' :: padZeroLeft 8 (toDecList n) := rfl
  unfold matchesAccountShape
  rw [htl]
  show ((padZeroLeft 8 (toDecList n)).length == 8 &&
    (padZeroLeft 8 (toDecList n)).all Char.isDigit) = true
  rw [Bool.and_eq_true]
  constructor
  · simpa using hplen
  · refine List.all_eq_true.2 ?_
    intro c hc
    rcases padZeroLeft_mem 8 _ c hc with h0 | h0
    · subst h0; decide
    · exact decAlphabet_digits c (toDecList_mem_alphabet n c h0)

/-- C4 (amended): the 400 and 404 errors of the order system — malformed
body on either create route, missing or invalid required fields of POST
/users and POST /orders, missing path key, unknown key on either GET
route and unknown accountNumber on POST /orders — all carry the JSON
error envelope with a human-readable message, but the 405 wrong-verb
errors are written by http.Error as a plain-text body, not as the JSON
envelope. -/
theorem c4_error_responses :
    (∀ m b env s, m ≠ "POST" → createUserHandler m b env s =
      (s, ⟨405, Body.textBody "method not allowed\n"⟩)) ∧
    (∀ m b env s, m ≠ "POST" → createOrderHandler m b env s =
      (s, ⟨405, Body.textBody "method not allowed\n"⟩)) ∧
    (∀ m k env s, m ≠ "GET" → getUserHandler m k env s =
      (s, ⟨405, Body.textBody "method not allowed\n"⟩)) ∧
    (∀ m k env s, m ≠ "GET" → getOrderHandler m k env s =
      (s, ⟨405, Body.textBody "method not allowed\n"⟩)) ∧
    (∀ m, m ≠ "GET" → healthHandler m = ⟨405, Body.textBody "method not allowed\n"⟩) ∧
    (∀ env s, createUserHandler "POST" none env s =
      (s, ⟨400, Body.errorBody "invalid request body"⟩)) ∧
    (∀ env s, createOrderHandler "POST" none env s =
      (s, ⟨400, Body.errorBody "invalid request body"⟩)) ∧
    (∀ env s, getUserHandler "GET" "" env s =
      (s, ⟨400, Body.errorBody "account number required"⟩)) ∧
    (∀ env s, getOrderHandler "GET" "" env s =
      (s, ⟨400, Body.errorBody "order id required"⟩)) ∧
    (∀ k env s, k ≠ "" → s.userStore k = none → getUserHandler "GET" k env s =
      (s, ⟨404, Body.errorBody "user not found"⟩)) ∧
    (∀ k env s, k ≠ "" → s.orderStore k = none → getOrderHandler "GET" k env s =
      (s, ⟨404, Body.errorBody "order not found"⟩)) ∧
    (∀ req env s, (req.name = "" ∨ req.email = "") →
      createUserHandler "POST" (some req) env s =
        (s, ⟨400, Body.errorBody "name and email are required"⟩)) ∧
    (∀ req env s, (req.accountNumber = "" ∨ req.amount ≤ 0 ∨ req.items = []) →
      createOrderHandler "POST" (some req) env s =
        (s, ⟨400, Body.errorBody "accountNumber, amount, and items are required"⟩)) ∧
    (∀ req env s, req.accountNumber ≠ "" → ¬ req.amount ≤ 0 → req.items ≠ [] →
      s.userStore req.accountNumber = none →
      createOrderHandler "POST" (some req) env s =
        (s, ⟨404, Body.errorBody "account not found"⟩)) ∧
    (∀ b, isErrorEnvelope (Body.textBody b) = false) := by
  refine ⟨?_, ?_, ?_, ?_, ?_, ?_, ?_, ?_, ?_, ?_, ?_, ?_, ?_, ?_, ?_⟩
  · intro m b env s h; simp [createUserHandler, h]
  · intro m b env s h; simp [createOrderHandler, h]
  · intro m k env s h; simp [getUserHandler, h]
  · intro m k env s h; simp [getOrderHandler, h]
  · intro m h; simp [healthHandler, h]
  · intro env s; simp [createUserHandler]
  · intro env s; simp [createOrderHandler]
  · intro env s; simp [getUserHandler]
  · intro env s; simp [getOrderHandler]
  · intro k env s hk h; simp [getUserHandler, hk, h]
  · intro k env s hk h; simp [getOrderHandler, hk, h]
  · intro req env s h; simp [createUserHandler, h]
  · intro req env s h; simp [createOrderHandler, h]
  · intro req env s h1 h2 h3 h4; simp [createOrderHandler, h1, h2, h3, h4]
  · intro b; rfl

/-- Witness for C4: a wrong verb and an unknown key, concretely. -/
theorem c4_error_responses_witness :
    createUserHandler "GET" (some sampleUserReq) envC initialState =
      (initialState, ⟨405, Body.textBody "method not allowed\n"⟩) ∧
    getUserHandler "GET" "ACC-00000042" envG initialState =
      (initialState, ⟨404, Body.errorBody "user not found"⟩) ∧
    createUserHandler "POST" (some ⟨"", "a@x.com"⟩) envC initialState =
      (initialState, ⟨400, Body.errorBody "name and email are required"⟩) ∧
    createOrderHandler "POST" (some ⟨"ACC-00000001", 5, ["Laptop"]⟩) envC initialState =
      (initialState, ⟨404, Body.errorBody "account not found"⟩) :=
  ⟨c4_error_responses.1 "GET" (some sampleUserReq) envC initialState (by decide),
   c4_error_responses.2.2.2.2.2.2.2.2.2.1 "ACC-00000042" envG initialState (by decide) rfl,
   c4_error_responses.2.2.2.2.2.2.2.2.2.2.2.1 ⟨"", "a@x.com"⟩ envC initialState (Or.inl rfl),
   c4_error_responses.2.2.2.2.2.2.2.2.2.2.2.2.2.1 ⟨"ACC-00000001", 5, ["Laptop"]⟩ envC
     initialState (by decide) (by decide) (by decide) rfl⟩

/-- Counterexample to C4 as stated: the wrong-verb error response of
POST /users has status 405 and its body is not the JSON error
envelope. -/
theorem c4_error_responses_counterexample :
    (createUserHandler "GET" (some sampleUserReq) envC initialState).2.statusCode = 405 ∧
    isErrorEnvelope ((createUserHandler "GET" (some sampleUserReq) envC initialState).2.body)
      = false := by
  exact ⟨by decide, by decide⟩

/-- C9: any two invocations of the same route handler on identical
requests agree on every field marked stable or static in that fixture.
The health endpoint of the order system answers GET with status 200 and
the constant one-field status body ok on every call, the fixture
server's health endpoint constantly answers 200 with status healthy, two
successive GETs of the same store key return byte-identical stable
fields whatever the draws, each of the fixture server's content routes
returns byte-identical values for its static fields and headers across
any two invocations (the /edge-cases body, the /plain-text body and the
/empty response are constant in full), and two successive identical
create POSTs return byte-identical stable fields. -/
theorem c9_stable_fields_identical :
    healthHandler "GET" = ⟨200, Body.healthBody "ok"⟩ ∧
    fixtureHealthResponse = ⟨200, Body.healthBody "healthy"⟩ ∧
    (∀ k eA eB s,
      stableUserFields ((getUserHandler "GET" k eA s).2) =
        stableUserFields ((getUserHandler "GET" k eB ((getUserHandler "GET" k eA s).1)).2)) ∧
    (∀ k eA eB s,
      stableOrderFields ((getOrderHandler "GET" k eA s).2) =
        stableOrderFields ((getOrderHandler "GET" k eB ((getOrderHandler "GET" k eA s).1)).2)) ∧
    (∀ e1 e2, (timestampsHandler e1).static_name = (timestampsHandler e2).static_name) ∧
    (∀ e1 e2, (uuidsHandler e1).static_field = (uuidsHandler e2).static_field) ∧
    (∀ e1 e2, (randomIdsHandler e1).static_val = (randomIdsHandler e2).static_val) ∧
    (∀ e1 e2, (prefixedIdsHandler e1).regular_text = (prefixedIdsHandler e2).regular_text) ∧
    (∀ e1 e2, (hashesHandler e1).regular_string = (hashesHandler e2).regular_string) ∧
    (∀ e1 e2, (nestedHandler e1).data.title = (nestedHandler e2).data.title ∧
      (nestedHandler e1).meta.service_name = (nestedHandler e2).meta.service_name) ∧
    (∀ e1 e2, (arraysHandler e1).names = (arraysHandler e2).names) ∧
    (∀ e1 e2,
      ((mixedHandler e1).name, (mixedHandler e1).email, (mixedHandler e1).age,
        (mixedHandler e1).balance, (mixedHandler e1).phone_number,
        (mixedHandler e1).ip_address, mixedContentLanguageHeader e1) =
      ((mixedHandler e2).name, (mixedHandler e2).email, (mixedHandler e2).age,
        (mixedHandler e2).balance, (mixedHandler e2).phone_number,
        (mixedHandler e2).ip_address, mixedContentLanguageHeader e2)) ∧
    (∀ e1 e2, edgeCasesHandler e1 = edgeCasesHandler e2) ∧
    (∀ e1 e2, plainTextHandler e1 = plainTextHandler e2 ∧
      plainTextHandler e1 = "This is a regular plain text response") ∧
    (∀ e1 e2, emptyHandler e1 = emptyHandler e2 ∧ emptyHandler e1 = (204, none)) ∧
    (∀ e1 e2, (headersOnlyHandler e1).xStaticHeader = (headersOnlyHandler e2).xStaticHeader ∧
      (headersOnlyHandler e1).status = 200) ∧
    (∀ e1 e2, (allNoisyHandler e1).static_field = (allNoisyHandler e2).static_field ∧
      (allNoisyHandler e1).nested_static = (allNoisyHandler e2).nested_static) ∧
    (∀ req e1 e2 s,
      stableUserFields ((createUserHandler "POST" (some req) e2
          ((createUserHandler "POST" (some req) e1 s).1)).2) =
        stableUserFields ((createUserHandler "POST" (some req) e1 s).2)) ∧
    (∀ req e1 e2 s,
      stableOrderFields ((createOrderHandler "POST" (some req) e2
          ((createOrderHandler "POST" (some req) e1 s).1)).2) =
        stableOrderFields ((createOrderHandler "POST" (some req) e1 s).2)) := by
  refine ⟨rfl, rfl, ?_, ?_, fun _ _ => rfl, fun _ _ => rfl, fun _ _ => rfl,
    fun _ _ => rfl, fun _ _ => rfl, fun _ _ => ⟨rfl, rfl⟩, fun _ _ => rfl,
    fun _ _ => rfl, fun _ _ => rfl, fun _ _ => ⟨rfl, rfl⟩, fun _ _ => ⟨rfl, rfl⟩,
    fun _ _ => ⟨rfl, rfl⟩, fun _ _ => ⟨rfl, rfl⟩, ?_, ?_⟩
  · intro k eA eB s
    rw [getUser_state_eq]
    by_cases hk : k = ""
    · simp [getUserHandler, hk, stableUserFields]
    · cases hu : s.userStore k with
      | none => simp [getUserHandler, hk, hu, stableUserFields]
      | some u => simp [getUserHandler, hk, hu, stableUserFields, refreshUser]
  · intro k eA eB s
    rw [getOrder_state_eq]
    by_cases hk : k = ""
    · simp [getOrderHandler, hk, stableOrderFields]
    · cases ho : s.orderStore k with
      | none => simp [getOrderHandler, hk, ho, stableOrderFields]
      | some o => simp [getOrderHandler, hk, ho, stableOrderFields, refreshOrder]
  · intro req e1 e2 s
    rcases Decidable.em (req.name = "" ∨ req.email = "") with hv | hv
    · simp [createUserHandler, hv, stableUserFields]
    · have h1 : ¬ req.name = "" := fun h => hv (Or.inl h)
      have h2 : ¬ req.email = "" := fun h => hv (Or.inr h)
      rw [createUser_success req e1 s h1 h2, createUser_success req e2 _ h1 h2]
      rfl
  · intro req e1 e2 s
    rcases Decidable.em (req.accountNumber = "" ∨ req.amount ≤ 0 ∨ req.items = [])
      with hv | hv
    · simp [createOrderHandler, hv, stableOrderFields]
    · have h1 : ¬ req.accountNumber = "" := fun h => hv (Or.inl h)
      have h2 : ¬ req.amount ≤ 0 := fun h => hv (Or.inr (Or.inl h))
      have h3 : ¬ req.items = [] := fun h => hv (Or.inr (Or.inr h))
      cases hu : s.userStore req.accountNumber with
      | none => simp [createOrderHandler, h1, h2, h3, hu, stableOrderFields]
      | some u =>
        have hu2 : ((createOrderHandler "POST" (some req) e1 s).1).userStore
            req.accountNumber = some u := by
          rw [createOrder_success req e1 s h1 h2 h3 u hu]
          exact hu
        rw [createOrder_success req e2 _ h1 h2 h3 u hu2,
          createOrder_success req e1 s h1 h2 h3 u hu]
        rfl

/-- C6 (amended): every create allocates from the strictly increasing
account counter and renders it as ACC- plus the zero-padded decimal
counter value; because %08d is a minimum width and not a fixed width,
the rendering matches ACC- followed by exactly eight digits precisely
while the counter value stays at most 99999999, and a later allocation
would exceed that shape. -/
theorem c6_account_number_shape :
    (∀ s : ServerState, (generateAccountNumber s).1.accountCounter = s.accountCounter + 1 ∧
      (generateAccountNumber s).2 = formatAccountNumber (s.accountCounter + 1)) ∧
    (∀ req env s, ¬ req.name = "" → ¬ req.email = "" →
      ((createUserHandler "POST" (some req) env s).1.accountCounter = s.accountCounter + 1 ∧
       (createUserHandler "POST" (some req) env s).2 =
         ⟨201, Body.userBody (mkUser (formatAccountNumber (s.accountCounter + 1)) req env)⟩)) ∧
    (∀ n, n ≤ 99999999 → matchesAccountShape (formatAccountNumber n) = true) := by
  refine ⟨?_, ?_, ?_⟩
  · intro s; exact ⟨rfl, rfl⟩
  · intro req env s h1 h2
    rw [createUser_success req env s h1 h2]
    exact ⟨rfl, rfl⟩
  · intro n h
    exact matchesAccountShape_of_le n h

/-- Witness for C6 at the first create. -/
theorem c6_account_number_shape_witness :
    (createUserHandler "POST" (some sampleUserReq) envC initialState).1.accountCounter = 1 ∧
    matchesAccountShape (formatAccountNumber 1) = true :=
  ⟨(c6_account_number_shape.2.1 sampleUserReq envC initialState (by decide) (by decide)).1,
   c6_account_number_shape.2.2 1 (by norm_num)⟩

/-- Counterexample to C6 as stated: at counter value 100000000 the
minimum-width rendering has nine digits, so the returned account number
no longer matches ACC- followed by exactly eight digits. -/
theorem c6_account_number_shape_counterexample :
    (generateAccountNumber stateAtCounterLimit).2 = "ACC-100000000" ∧
    matchesAccountShape ((generateAccountNumber stateAtCounterLimit).2) = false := by
  exact ⟨by decide, by decide⟩


/-- C1 (amended): for a validated create followed by a get of the
returned key, the stable fields of the get response equal those supplied
to create, and the get response regenerates exactly the noisy fields
sessionId, uuidV4, ulidId, ksuidId, parsedTimestamp, requestId,
processingTimeMs and serverTimestamp — they carry the get request's
fresh draws, hence differ from the create response whenever the draws
differ — while userId and createdAt (and, for orders, transactionHash)
are returned unchanged from the create response, because the get
handlers do not regenerate them. -/
theorem c1_create_get_roundtrip :
    (∀ req ec eg s, ¬ req.name = "" → ¬ req.email = "" →
      UserRoundTripSpec req ec eg s) ∧
    (∀ ureq amt items e0 ec eg s, ¬ ureq.name = "" → ¬ ureq.email = "" →
      ¬ amt ≤ 0 → ¬ items = [] → OrderRoundTripSpec ureq amt items e0 ec eg s) := by
  constructor
  · intro req ec eg s h1 h2
    refine ⟨_, _, createUser_success req ec s h1 h2, _,
      getUser_hit _ eg _ _ (formatAccountNumber_ne_empty _)
        (Function.update_same _ _ _), ?_⟩
    exact ⟨rfl, rfl, rfl, rfl, rfl, rfl, rfl, rfl, rfl, rfl, rfl, rfl, rfl,
      rfl, rfl, rfl, rfl, rfl, rfl, rfl, rfl, rfl⟩
  · intro ureq amt items e0 ec eg s h1 h2 h3 h4
    refine ⟨_, _, createUser_success ureq e0 s h1 h2, _, _,
      createOrder_success ⟨_, amt, items⟩ ec _
        (formatAccountNumber_ne_empty _) h3 h4 _ (Function.update_same _ _ _), _,
      getOrder_hit _ eg _ _ (formatOrderID_ne_empty _)
        (Function.update_same _ _ _), ?_⟩
    exact ⟨rfl, rfl, rfl, rfl, rfl, rfl, rfl, rfl, rfl, rfl, rfl, rfl, rfl,
      rfl, rfl, rfl, rfl, rfl, rfl, rfl, rfl, rfl, rfl, rfl⟩

/-- Witness for C1 on a concrete create-then-get run. -/
theorem c1_create_get_roundtrip_witness :
    UserRoundTripSpec sampleUserReq envC envG initialState ∧
    OrderRoundTripSpec sampleUserReq 5 ["Laptop"] envC envC envG initialState :=
  ⟨c1_create_get_roundtrip.1 sampleUserReq envC envG initialState (by decide) (by decide),
   c1_create_get_roundtrip.2 sampleUserReq 5 ["Laptop"] envC envC envG initialState
     (by decide) (by decide) (by decide) (by decide)⟩

/-- Counterexample to C1 as stated: in a concrete create-then-get run
with entirely different random draws, the get response carries the very
same userId and createdAt as the create response, so not every noisy
field differs between the two responses. -/
theorem c1_create_get_roundtrip_counterexample :
    responseUserId ((createUserHandler "POST" (some sampleUserReq) envC initialState).2) =
      some "uid-create" ∧
    responseUserId ((getUserHandler "GET" "ACC-00000001" envG
        ((createUserHandler "POST" (some sampleUserReq) envC initialState).1)).2) =
      some "uid-create" ∧
    responseCreatedAt ((createUserHandler "POST" (some sampleUserReq) envC initialState).2) =
      some "created-at-create" ∧
    responseCreatedAt ((getUserHandler "GET" "ACC-00000001" envG
        ((createUserHandler "POST" (some sampleUserReq) envC initialState).1)).2) =
      some "created-at-create" := by
  exact ⟨by decide, by decide, by decide, by decide⟩
